import Mathlib

/-!
# tree-mypass.cc : clone/base equivalence analysis of a GIMPLE pass

A shallow embedding of `src/tree-mypass.cc`.

* The host compiler's data (`function`, `basic_block`, `gimple`, `tree`) is
  modelled by the parts of it that the pass reads.
* `dump_file` is a nullable stream.  A stream is the list of `fprintf` calls made
  on it; each call is recorded as its format string and its arguments.  A call
  of `fprintf` on a null stream is a fault (`Fault.null_stream`).
* `std::map<std::string, function*>` is its enumeration: the list of its
  entries in ascending key order.
* A C function that returns through several `return` statements is modelled
  as returning which exit was taken, with the locals live at that exit
  (`Verdict`, `Decision`); the C return value is recovered by `Verdict.ret`.
-/

namespace TreeMyPass

/-! ## Host data -/

/-- A non-null `tree` node, as far as the pass looks at it: its `TREE_CODE`. -/
structure tree_node where
  code : Nat
deriving DecidableEq, Repr

/-- The type `tree`: a pointer to a tree node, possibly null. -/
abbrev tree := Option tree_node

/-- The macro `TREE_CODE(op)`. -/
def TREE_CODE (op : tree_node) : Nat := op.code

/-- A GIMPLE statement: its code (an enumerator of `enum gimple_code`) and its
operand vector. -/
structure gimple where
  code : Nat
  ops : List tree
deriving DecidableEq, Repr

/-- The accessor `gimple_code(stmt)`. -/
def gimple_code (stmt : gimple) : Nat := stmt.code

/-- The accessor `gimple_num_ops(stmt)`. -/
def gimple_num_ops (stmt : gimple) : Nat := stmt.ops.length

/-- A basic block: its statements in the order the statement iterator
(`gsi_start_bb` .. `gsi_next`) visits them. -/
abbrev basic_block := List gimple

/-- A `struct function`: its name and its basic blocks in the order
`FOR_EACH_BB_FN` visits them. -/
structure function where
  name : String
  bbs : List basic_block
deriving DecidableEq, Repr

/-- The accessor `function_name(fun)`. -/
def function_name (fn : function) : String := fn.name

/-! ## The dump stream -/

/-- One argument of a `fprintf` call. -/
inductive Arg where
  /-- a `%s` argument given as a C string -/
  | str (s : String)
  /-- a `%zu` argument -/
  | zu (n : Nat)
  /-- a `%u` argument -/
  | u (n : Nat)
  /-- the `%s` argument `gimple_code_name[c]` -/
  | gimple_code_name (c : Nat)
  /-- the `%s` argument `get_tree_code_name(c)` -/
  | tree_code_name (c : Nat)
deriving DecidableEq, Repr

/-- An open stream: the `fprintf` calls made on it so far, oldest first. -/
abbrev FILE := List (String × List Arg)

/-- What a run can die of. -/
inductive Fault where
  /-- `fprintf` was called on a null `FILE*` -/
  | null_stream
  /-- a `std::vector` was indexed past its end -/
  | out_of_range
deriving DecidableEq, Repr

/-- The call `fprintf(stream, fmt, args...)`; a null stream faults. -/
def fprintf (stream : Option FILE) (fmt : String) (args : List Arg) :
    Except Fault (Option FILE) :=
  match stream with
  | none => .error .null_stream
  | some out => .ok (some (out ++ [(fmt, args)]))

/-- The guarded form `if (dump_file) { fprintf(dump_file, fmt, args...); }`. -/
def guarded_fprintf (dump_file : Option FILE) (fmt : String) (args : List Arg) :
    Except Fault (Option FILE) :=
  if dump_file.isSome then fprintf dump_file fmt args else .ok dump_file

/-! ## Name heuristics (lines 26-34) -/

/-- Whether the text starts with the pattern. -/
def starts_with : List Char → List Char → Bool
  | [], _ => true
  | _ :: _, [] => false
  | p :: ps, c :: cs => p == c && starts_with ps cs

/-- Search of `std::string::find`: the first position at or after `pos` at
which the pattern occurs, `none` for `npos`. -/
def find_from (pat : List Char) : List Char → Nat → Option Nat
  | [], pos => if starts_with pat [] then some pos else none
  | c :: cs, pos =>
    if starts_with pat (c :: cs) then some pos else find_from pat cs (pos + 1)

/-- The call `s.find(pat)` of `std::string`; `none` is `std::string::npos`. -/
def string_find (s pat : String) : Option Nat :=
  find_from pat.toList s.toList 0

/-- Lines 26-29. -/
def is_possible_base_function (fname : String) : Bool :=
  (string_find fname "base").isSome

/-- Lines 31-34. -/
def is_clone (fname base_function_name : String) : Bool :=
  (string_find fname (base_function_name ++ "_clone")).isSome

/-! ## Flattening (lines 36-46) -/

/-- Lines 36-46: every block in `FOR_EACH_BB_FN` order, every statement of a
block in iterator order, each pushed to the back of the vector. -/
def get_gimple_statements (fn : function) : List gimple :=
  fn.bbs.foldl (fun stmts bb => bb.foldl (fun stmts stmt => stmts ++ [stmt]) stmts) []

/-! ## Statement comparison (lines 47-103) -/

/-- Lines 47-51. -/
def statements_are_equivalent (stmt1 stmt2 : gimple) : Bool :=
  gimple_code stmt1 == gimple_code stmt2

/-- The operand loop `for (unsigned j = 0; j < ops; ++j)` of lines 74-83,
88-97 and 145-154, from index `j` on; `hdr` is the format of its first
`fprintf`, the only thing in which the three loops differ. -/
def dump_operands (hdr : String) : List tree → Nat → Option FILE → Except Fault (Option FILE)
  | [], _, d => .ok d
  | op :: rest, j, d => do
    let d ← fprintf d hdr [.u j]
    let d ← match op with
      | some t => do
        let d ← fprintf d "    Operand %u: %s\n" [.u j, .tree_code_name (TREE_CODE t)]
        fprintf d "\n" []
      | none => fprintf d "(null)\n" []
    dump_operands hdr rest (j + 1) d

/-- Which `return` of `functions_are_equivalent` was taken. -/
inductive Verdict where
  /-- line 102, `return true` -/
  | Equivalent
  /-- line 58, `return false` after the size test -/
  | Incomparable
  /-- line 98, `return false` inside the loop, with the loop index `i` and the
  statements `stmt1`, `stmt2` of that iteration -/
  | Mismatch (position : Nat) (expected actual : gimple)
deriving DecidableEq, Repr

/-- The `bool` that `functions_are_equivalent` returns at that exit. -/
def Verdict.ret : Verdict → Bool
  | .Equivalent => true
  | .Incomparable => false
  | .Mismatch _ _ _ => false

/-- Lines 66-97: the unguarded report of the two statements that differ. -/
def report_mismatch (i : Nat) (stmt1 stmt2 : gimple) (d : Option FILE) :
    Except Fault (Option FILE) := do
  let d ← fprintf d "Statements at position %zu are not equivalent.\n" [.zu i]
  let d ← fprintf d "Stmt1: code: %s\n" [.gimple_code_name (gimple_code stmt1)]
  let ops1 := gimple_num_ops stmt1
  let d ← fprintf d "  Number of operands: %u\n" [.u ops1]
  let d ← dump_operands "  Operand %u of stmt1: " stmt1.ops 0 d
  let d ← fprintf d "Stmt2: code: %s\n" [.gimple_code_name (gimple_code stmt2)]
  let ops2 := gimple_num_ops stmt2
  let d ← fprintf d "  Number of operands: %u\n" [.u ops2]
  dump_operands "  Operand %u of stmt2: " stmt2.ops 0 d

/-- The loop of lines 61-100 from index `i` on; the two lists are what is left
of `stmts1` and `stmts2` from that index, walked in step. -/
def compare_loop : List gimple → List gimple → Nat → Option FILE →
    Except Fault (Verdict × Option FILE)
  | [], _, _, d => .ok (.Equivalent, d)
  | _ :: _, [], _, _ => .error .out_of_range
  | stmt1 :: rest1, stmt2 :: rest2, i, d =>
    if !statements_are_equivalent stmt1 stmt2 then do
      let d ← report_mismatch i stmt1 stmt2 d
      .ok (.Mismatch i stmt1 stmt2, d)
    else compare_loop rest1 rest2 (i + 1) d

/-- Lines 52-103, run with the global `dump_file` in the given state. -/
def functions_are_equivalent (dump_file : Option FILE) (fun1 fun2 : function) :
    Except Fault (Verdict × Option FILE) :=
  let stmts1 := get_gimple_statements fun1
  let stmts2 := get_gimple_statements fun2
  if stmts1.length != stmts2.length then do
    let d ← fprintf dump_file "Functions have different number of statements.\n" []
    .ok (.Incomparable, d)
  else compare_loop stmts1 stmts2 0 dump_file

/-! ## The registry and the analysis (lines 24, 170-230) -/

/-- The type `std::map<std::string, function*>`, as the list of its entries
in enumeration order; a mapped pointer may be null. -/
abbrev Registry := List (String × Option function)

/-- The comparison behind `operator<` of `std::string`: the first character
that differs decides, by its code; a proper initial part of a string comes
before the string. -/
def chars_lt : List Char → List Char → Bool
  | [], [] => false
  | [], _ :: _ => true
  | _ :: _, [] => false
  | a :: as, b :: bs =>
    decide (a.toNat < b.toNat) || (a.toNat == b.toNat && chars_lt as bs)

/-- The order `operator<` of `std::string`, the key order of the map. -/
def string_lt (a b : String) : Bool := chars_lt a.toList b.toList

/-- The keys of a `std::map` come in strictly ascending order. -/
def Registry.ordered (functions : Registry) : Prop :=
  (functions.map Prod.fst).Pairwise (fun a b => string_lt a b = true)

/-- Line 24 : the file-local registry as the file initialises it. -/
def functions_init : Registry := []

/-- Lines 178-190: the locals `base_function_name` and `base_function` after
the loop; they start as `""` and `nullptr`. -/
def find_base : Registry → String × Option function
  | [] => ("", none)
  | (fname, fn) :: rest =>
    if is_possible_base_function fname then (fname, fn) else find_base rest

/-- Lines 180, 199-206: the local `cloned_function` after the loop; it starts
as `nullptr`. -/
def find_clone (base_function_name : String) : Registry → Option function
  | [] => none
  | (fname, fn) :: rest =>
    if is_clone fname base_function_name then fn else find_clone base_function_name rest

/-- Which exit of `analyze_cloned_functions` was taken. -/
inductive Decision where
  /-- line 175 -/
  | NoFunctions
  /-- line 196 -/
  | NoBaseFound
  /-- line 212, with the local `base_function_name` -/
  | NoCloneFound (base_name : String)
  /-- line 230, with `base_function_name`, `function_name(cloned_function)`,
  the exit of the call on line 220 and the branch of line 221 taken -/
  | Compared (base_name clone_name : String) (verdict : Verdict) (recommend_prune : Bool)
deriving DecidableEq, Repr

/-- Lines 170-230, run on the registry `functions` with the global
`dump_file` in the given state. -/
def analyze_cloned_functions (functions : Registry) (dump_file : Option FILE) :
    Except Fault (Decision × Option FILE) :=
  if functions.isEmpty then do
    let d ← guarded_fprintf dump_file "No functions recorded. Cannot analyze.\n" []
    .ok (.NoFunctions, d)
  else
    let (base_function_name, base_function) := find_base functions
    match base_function with
    | none => do
      let d ← guarded_fprintf dump_file "No base function found.\n" []
      .ok (.NoBaseFound, d)
    | some base_function =>
      match find_clone base_function_name functions with
      | none => do
        let d ← guarded_fprintf dump_file
          "No cloned function found for base function: %s\n" [.str base_function_name]
        .ok (.NoCloneFound base_function_name, d)
      | some cloned_function => do
        let d ← guarded_fprintf dump_file "Base function: %s\n" [.str base_function_name]
        let d ← guarded_fprintf d "Cloned function: %s\n" [.str (function_name cloned_function)]
        let (verdict, d) ← functions_are_equivalent d base_function cloned_function
        let equivalent := verdict.ret
        if equivalent then do
          let d ← guarded_fprintf d
            "The cloned function is equivalent to the base function. Pruning is recommended.\n" []
          .ok (.Compared base_function_name (function_name cloned_function) verdict true, d)
        else do
          let d ← guarded_fprintf d
            "The cloned function is not equivalent to the base function. Pruning is not recommended.\n" []
          .ok (.Compared base_function_name (function_name cloned_function) verdict false, d)

/-! ## The pass (lines 119-166) -/

/-- Lines 124-127. -/
def gate (_fn : function) : Bool := true

/-- Lines 137-155: the guarded dump of one statement. -/
def dump_stmt (stmt : gimple) (dump_file : Option FILE) : Except Fault (Option FILE) :=
  if dump_file.isSome then do
    let d ← fprintf dump_file "GIMPLE stmt:\n" []
    let d ← fprintf d "  Code: %s\n" [.gimple_code_name (gimple_code stmt)]
    let ops := gimple_num_ops stmt
    let d ← fprintf d "  Number of operands: %u\n" [.u ops]
    dump_operands "    Operand %u: " stmt.ops 0 d
  else .ok dump_file

/-- Lines 136-156: the statement loop over one block. -/
def dump_block : basic_block → Option FILE → Except Fault (Option FILE)
  | [], d => .ok d
  | stmt :: rest, d => do
    let d ← dump_stmt stmt d
    dump_block rest d

/-- Lines 135-157: the block loop. -/
def dump_blocks : List basic_block → Option FILE → Except Fault (Option FILE)
  | [], d => .ok d
  | bb :: rest, d => do
    let d ← dump_block bb d
    dump_blocks rest d

/-- Lines 130-157 : what `execute` does before it calls
`analyze_cloned_functions`. -/
def execute_dump (dump_file : Option FILE) (fn : function) : Except Fault (Option FILE) := do
  let d ← guarded_fprintf dump_file "My pass is running on function: %s\n"
    [.str (function_name fn)]
  dump_blocks fn.bbs d

/-- Lines 129-163: `execute` writes its dump, calls `analyze_cloned_functions`
on the registry and returns `0`. -/
def execute (functions : Registry) (dump_file : Option FILE) (fn : function) :
    Except Fault (Nat × Option FILE) := do
  let d ← execute_dump dump_file fn
  let (_, d) ← analyze_cloned_functions functions d
  .ok (0, d)

/-! ## Runs of the pass -/

/-- The state the code of the file runs in: the file-local registry of
line 24 and the host's `dump_file`. -/
structure PassState where
  functions : Registry
  dump_file : Option FILE

/-- A call of one of the functions of the file. -/
inductive Call where
  | gate (fn : function)
  | execute (fn : function)
  | analyze_cloned_functions
  | functions_are_equivalent (fun1 fun2 : function)

/-- The state after a call that returns.  No function of the file assigns to
`functions` or calls a modifier of the map (it is read on lines 171, 183
and 200 only), so only the dump stream changes. -/
def Call.run (s : PassState) : Call → Except Fault PassState
  | .gate _ => .ok s
  | .execute fn => do
    let (_, d) ← TreeMyPass.execute s.functions s.dump_file fn
    .ok { s with dump_file := d }
  | .analyze_cloned_functions => do
    let (_, d) ← TreeMyPass.analyze_cloned_functions s.functions s.dump_file
    .ok { s with dump_file := d }
  | .functions_are_equivalent fun1 fun2 => do
    let (_, d) ← TreeMyPass.functions_are_equivalent s.dump_file fun1 fun2
    .ok { s with dump_file := d }

/-- The states a run of the pass can be in: it starts with the registry of
line 24 and any `dump_file`; the functions of the file are called in any
order; between calls the host may open, close or switch `dump_file`. -/
inductive Reachable : PassState → Prop where
  | start (dump_file : Option FILE) : Reachable ⟨functions_init, dump_file⟩
  | call {s s' : PassState} (c : Call) : Reachable s → c.run s = .ok s' → Reachable s'
  | host {s : PassState} (dump_file : Option FILE) :
    Reachable s → Reachable { s with dump_file := dump_file }

/-! # Theorems -/

theorem fprintf_open (out : FILE) (fmt : String) (args : List Arg) :
    fprintf (some out) fmt args = .ok (some (out ++ [(fmt, args)])) := rfl

theorem fprintf_null (fmt : String) (args : List Arg) :
    fprintf none fmt args = .error .null_stream := rfl

theorem dump_operands_open (hdr : String) (ops : List tree) :
    ∀ (j : Nat) (out : FILE), ∃ lines, dump_operands hdr ops j (some out) = .ok (some (out ++ lines)) := by
  induction ops with
  | nil => intro j out; exact ⟨[], by simp [dump_operands]⟩
  | cons op rest ih =>
    intro j out
    cases op with
    | none =>
      obtain ⟨lines, hl⟩ := ih (j + 1) (out ++ [(hdr, [.u j])] ++ [("(null)\n", [])])
      refine ⟨[(hdr, [.u j])] ++ [("(null)\n", [])] ++ lines, ?_⟩
      simp [dump_operands, fprintf_open, bind, Except.bind] at hl ⊢
      exact hl
    | some t =>
      obtain ⟨lines, hl⟩ := ih (j + 1) (out ++ [(hdr, [.u j])] ++
        [("    Operand %u: %s\n", [.u j, .tree_code_name (TREE_CODE t)])] ++ [("\n", [])])
      refine ⟨[(hdr, [.u j])] ++
        [("    Operand %u: %s\n", [.u j, .tree_code_name (TREE_CODE t)])] ++ [("\n", [])] ++ lines, ?_⟩
      simp [dump_operands, fprintf_open, bind, Except.bind] at hl ⊢
      exact hl

theorem report_mismatch_open (i : Nat) (stmt1 stmt2 : gimple) (out : FILE) :
    ∃ lines, report_mismatch i stmt1 stmt2 (some out) = .ok (some (out ++ lines)) := by
  obtain ⟨l1, h1⟩ := dump_operands_open "  Operand %u of stmt1: " stmt1.ops 0
    (out ++ [("Statements at position %zu are not equivalent.\n", [.zu i])] ++
      [("Stmt1: code: %s\n", [.gimple_code_name (gimple_code stmt1)])] ++
      [("  Number of operands: %u\n", [.u (gimple_num_ops stmt1)])])
  obtain ⟨l2, h2⟩ := dump_operands_open "  Operand %u of stmt2: " stmt2.ops 0
    (out ++ [("Statements at position %zu are not equivalent.\n", [.zu i])] ++
      [("Stmt1: code: %s\n", [.gimple_code_name (gimple_code stmt1)])] ++
      [("  Number of operands: %u\n", [.u (gimple_num_ops stmt1)])] ++ l1 ++
      [("Stmt2: code: %s\n", [.gimple_code_name (gimple_code stmt2)])] ++
      [("  Number of operands: %u\n", [.u (gimple_num_ops stmt2)])])
  refine ⟨[("Statements at position %zu are not equivalent.\n", [.zu i])] ++
      [("Stmt1: code: %s\n", [.gimple_code_name (gimple_code stmt1)])] ++
      [("  Number of operands: %u\n", [.u (gimple_num_ops stmt1)])] ++ l1 ++
      [("Stmt2: code: %s\n", [.gimple_code_name (gimple_code stmt2)])] ++
      [("  Number of operands: %u\n", [.u (gimple_num_ops stmt2)])] ++ l2, ?_⟩
  simp only [report_mismatch, fprintf_open, bind, Except.bind, h1, h2]
  simp only [List.append_assoc]

theorem report_mismatch_null (i : Nat) (stmt1 stmt2 : gimple) :
    report_mismatch i stmt1 stmt2 none = .error .null_stream := rfl

theorem get_gimple_statements_single (name : String) (stmts : List gimple) :
    get_gimple_statements ⟨name, [stmts]⟩ = stmts := by
  have h : ∀ (l acc : List gimple),
      l.foldl (fun stmts stmt => stmts ++ [stmt]) acc = acc ++ l := by
    intro l
    induction l with
    | nil => intro acc; simp
    | cons x xs ih => intro acc; simp [ih]
  simp [get_gimple_statements, h]

theorem compare_loop_never_incomparable (stmts1 : List gimple) :
    ∀ (stmts2 : List gimple) (i : Nat) (d d' : Option FILE),
      compare_loop stmts1 stmts2 i d ≠ .ok (.Incomparable, d') := by
  induction stmts1 with
  | nil => intro stmts2 i d d'; simp [compare_loop]
  | cons s1 r1 ih =>
    intro stmts2 i d d'
    cases stmts2 with
    | nil => simp [compare_loop]
    | cons s2 r2 =>
      by_cases hc : statements_are_equivalent s1 s2 = true
      · simp [compare_loop, hc]; exact ih r2 (i + 1) d d'
      · cases hr : report_mismatch i s1 s2 d <;>
          simp [compare_loop, hc, hr, bind, Except.bind]

theorem compare_loop_same_codes (stmts1 : List gimple) :
    ∀ (stmts2 : List gimple) (i : Nat) (d : Option FILE),
      stmts1.map gimple_code = stmts2.map gimple_code →
      compare_loop stmts1 stmts2 i d = .ok (.Equivalent, d) := by
  induction stmts1 with
  | nil => intro stmts2 i d _; simp [compare_loop]
  | cons s1 r1 ih =>
    intro stmts2 i d h
    cases stmts2 with
    | nil => simp at h
    | cons s2 r2 =>
      simp only [List.map_cons, List.cons.injEq] at h
      simp [compare_loop, statements_are_equivalent, h.1]
      exact ih r2 (i + 1) d h.2

theorem compare_loop_equivalent_inv (stmts1 : List gimple) :
    ∀ (stmts2 : List gimple) (i : Nat) (d d' : Option FILE),
      stmts1.length = stmts2.length →
      compare_loop stmts1 stmts2 i d = .ok (.Equivalent, d') →
      stmts1.map gimple_code = stmts2.map gimple_code ∧ d' = d := by
  induction stmts1 with
  | nil =>
    intro stmts2 i d d' hlen h
    cases stmts2 with
    | nil => simp [compare_loop] at h; simp [h]
    | cons s2 r2 => simp at hlen
  | cons s1 r1 ih =>
    intro stmts2 i d d' hlen h
    cases stmts2 with
    | nil => simp at hlen
    | cons s2 r2 =>
      by_cases hc : statements_are_equivalent s1 s2 = true
      · simp [compare_loop, hc] at h
        have := ih r2 (i + 1) d d' (by simpa using hlen) h
        simp [statements_are_equivalent] at hc
        simp [hc, this.1, this.2]
      · cases hr : report_mismatch i s1 s2 d <;>
          simp [compare_loop, hc, hr, bind, Except.bind] at h

theorem compare_loop_mismatch_inv (stmts1 : List gimple) :
    ∀ (stmts2 : List gimple) (i p : Nat) (expected actual : gimple) (d d' : Option FILE),
      compare_loop stmts1 stmts2 i d = .ok (.Mismatch p expected actual, d') →
      ∃ k, p = i + k ∧ stmts1[k]? = some expected ∧ stmts2[k]? = some actual ∧
        gimple_code expected ≠ gimple_code actual ∧
        (∀ j, j < k → (stmts1[j]?).map gimple_code = (stmts2[j]?).map gimple_code) ∧
        report_mismatch p expected actual d = .ok d' := by
  induction stmts1 with
  | nil => intro stmts2 i p e a d d' h; simp [compare_loop] at h
  | cons s1 r1 ih =>
    intro stmts2 i p e a d d' h
    cases stmts2 with
    | nil => simp [compare_loop] at h
    | cons s2 r2 =>
      by_cases hc : statements_are_equivalent s1 s2 = true
      · simp [compare_loop, hc] at h
        obtain ⟨k, hp, h1, h2, hne, hbefore, hrep⟩ := ih r2 (i + 1) p e a d d' h
        refine ⟨k + 1, by omega, by simpa using h1, by simpa using h2, hne, ?_, hrep⟩
        intro j hj
        cases j with
        | zero => simpa [statements_are_equivalent] using hc
        | succ j => simpa using hbefore j (by omega)
      · cases hr : report_mismatch i s1 s2 d with
        | error e => simp [compare_loop, hc, hr, bind, Except.bind] at h
        | ok d1 =>
          simp [compare_loop, hc, hr, bind, Except.bind] at h
          obtain ⟨⟨rfl, rfl, rfl⟩, rfl⟩ := h
          refine ⟨0, by simp, by simp, by simp, ?_, by simp, hr⟩
          simpa [statements_are_equivalent] using hc

theorem compare_loop_open (stmts1 : List gimple) :
    ∀ (stmts2 : List gimple) (i : Nat) (out : FILE),
      stmts1.length = stmts2.length →
      ∃ v lines, compare_loop stmts1 stmts2 i (some out) = .ok (v, some (out ++ lines)) := by
  induction stmts1 with
  | nil => intro stmts2 i out _; exact ⟨.Equivalent, [], by simp [compare_loop]⟩
  | cons s1 r1 ih =>
    intro stmts2 i out hlen
    cases stmts2 with
    | nil => simp at hlen
    | cons s2 r2 =>
      by_cases hc : statements_are_equivalent s1 s2 = true
      · obtain ⟨v, lines, h⟩ := ih r2 (i + 1) out (by simpa using hlen)
        exact ⟨v, lines, by simp [compare_loop, hc, h]⟩
      · obtain ⟨lines, h⟩ := report_mismatch_open i s1 s2 out
        exact ⟨.Mismatch i s1 s2, lines, by simp [compare_loop, hc, h, bind, Except.bind]⟩

theorem same_codes_iff (stmts1 : List gimple) :
    ∀ (stmts2 : List gimple),
      stmts1.map gimple_code = stmts2.map gimple_code ↔
        (stmts1.length = stmts2.length ∧
          ∀ (i : Nat) (h1 : i < stmts1.length) (h2 : i < stmts2.length),
            gimple_code (stmts1.get ⟨i, h1⟩) = gimple_code (stmts2.get ⟨i, h2⟩)) := by
  induction stmts1 with
  | nil =>
    intro stmts2
    cases stmts2 with
    | nil => simp
    | cons s2 r2 => simp
  | cons s1 r1 ih =>
    intro stmts2
    cases stmts2 with
    | nil => simp
    | cons s2 r2 =>
      simp only [List.map_cons, List.cons.injEq, List.length_cons, Nat.add_right_cancel_iff, ih r2]
      constructor
      · rintro ⟨h0, hlen, hrest⟩
        refine ⟨hlen, ?_⟩
        intro i h1 h2
        cases i with
        | zero => simpa using h0
        | succ i => simpa using hrest i (by simpa using h1) (by simpa using h2)
      · rintro ⟨hlen, hall⟩
        refine ⟨by simpa using hall 0 (by simp) (by simp), hlen, ?_⟩
        intro i h1 h2
        simpa using hall (i + 1) (by simpa using h1) (by simpa using h2)

theorem length_gate_open (out : FILE) (fun1 fun2 : function)
    (hlen : (get_gimple_statements fun1).length ≠ (get_gimple_statements fun2).length) :
    functions_are_equivalent (some out) fun1 fun2 =
      .ok (.Incomparable,
        some (out ++ [("Functions have different number of statements.\n", [])])) := by
  simp [functions_are_equivalent, hlen, fprintf_open, bind, Except.bind]

theorem length_gate_null (fun1 fun2 : function)
    (hlen : (get_gimple_statements fun1).length ≠ (get_gimple_statements fun2).length) :
    functions_are_equivalent none fun1 fun2 = .error .null_stream := by
  simp [functions_are_equivalent, hlen, fprintf_null, bind, Except.bind]

theorem functions_are_equivalent_open (out : FILE) (fun1 fun2 : function) :
    ∃ v lines, functions_are_equivalent (some out) fun1 fun2 = .ok (v, some (out ++ lines)) := by
  by_cases hlen : (get_gimple_statements fun1).length = (get_gimple_statements fun2).length
  · obtain ⟨v, lines, h⟩ := compare_loop_open _ _ 0 out hlen
    exact ⟨v, lines, by simp [functions_are_equivalent, hlen, h]⟩
  · exact ⟨_, _, length_gate_open out fun1 fun2 hlen⟩

theorem functions_are_equivalent_same_codes (dump_file : Option FILE) (fun1 fun2 : function)
    (h : (get_gimple_statements fun1).map gimple_code =
      (get_gimple_statements fun2).map gimple_code) :
    functions_are_equivalent dump_file fun1 fun2 = .ok (.Equivalent, dump_file) := by
  have hlen : (get_gimple_statements fun1).length = (get_gimple_statements fun2).length := by
    simpa using congrArg List.length h
  simp [functions_are_equivalent, hlen, compare_loop_same_codes _ _ 0 dump_file h]

theorem functions_are_equivalent_equivalent_inv (dump_file d : Option FILE)
    (fun1 fun2 : function)
    (h : functions_are_equivalent dump_file fun1 fun2 = .ok (.Equivalent, d)) :
    (get_gimple_statements fun1).map gimple_code =
      (get_gimple_statements fun2).map gimple_code ∧ d = dump_file := by
  by_cases hlen : (get_gimple_statements fun1).length = (get_gimple_statements fun2).length
  · simp [functions_are_equivalent, hlen] at h
    exact compare_loop_equivalent_inv _ _ 0 dump_file d hlen h
  · cases dump_file with
    | none => rw [length_gate_null fun1 fun2 hlen] at h; cases h
    | some out => rw [length_gate_open out fun1 fun2 hlen] at h; cases h

/-- C1. `functions_are_equivalent` takes the `return true` exit exactly when
the two flattened statement lists have the same length and the same
`gimple_code` at every position, whatever the state of `dump_file`; operands
play no part: two lists with the same sequence of codes are equivalent. -/
theorem functions_are_equivalent_iff_codes (dump_file : Option FILE) (fun1 fun2 : function) :
    ((∃ d, functions_are_equivalent dump_file fun1 fun2 = .ok (.Equivalent, d)) ↔
      ((get_gimple_statements fun1).length = (get_gimple_statements fun2).length ∧
        ∀ (i : Nat) (h1 : i < (get_gimple_statements fun1).length)
          (h2 : i < (get_gimple_statements fun2).length),
          gimple_code ((get_gimple_statements fun1).get ⟨i, h1⟩) =
            gimple_code ((get_gimple_statements fun2).get ⟨i, h2⟩))) ∧
    ((get_gimple_statements fun1).map gimple_code =
        (get_gimple_statements fun2).map gimple_code →
      functions_are_equivalent dump_file fun1 fun2 = .ok (.Equivalent, dump_file)) := by
  refine ⟨?_, functions_are_equivalent_same_codes dump_file fun1 fun2⟩
  rw [← same_codes_iff]
  constructor
  · rintro ⟨d, h⟩
    exact (functions_are_equivalent_equivalent_inv dump_file d fun1 fun2 h).1
  · intro h
    exact ⟨dump_file, functions_are_equivalent_same_codes dump_file fun1 fun2 h⟩

/-- C1, an instance: two one-statement functions whose statements have the
same code and different operand vectors are equivalent, with `dump_file`
null. -/
theorem functions_are_equivalent_iff_codes_witness :
    functions_are_equivalent none ⟨"f", [[⟨6, [some ⟨1⟩]⟩]]⟩ ⟨"g", [[⟨6, [none, some ⟨2⟩]⟩]]⟩ =
      .ok (.Equivalent, none) :=
  (functions_are_equivalent_iff_codes none ⟨"f", [[⟨6, [some ⟨1⟩]⟩]]⟩
    ⟨"g", [[⟨6, [none, some ⟨2⟩]⟩]]⟩).2 (by decide)

theorem functions_are_equivalent_mismatch_inv (dump_file d : Option FILE)
    (fun1 fun2 : function) (i : Nat) (expected actual : gimple)
    (h : functions_are_equivalent dump_file fun1 fun2 = .ok (.Mismatch i expected actual, d)) :
    (get_gimple_statements fun1)[i]? = some expected ∧
      (get_gimple_statements fun2)[i]? = some actual ∧
      gimple_code expected ≠ gimple_code actual ∧
      (∀ j, j < i → ((get_gimple_statements fun1)[j]?).map gimple_code =
        ((get_gimple_statements fun2)[j]?).map gimple_code) := by
  by_cases hlen : (get_gimple_statements fun1).length = (get_gimple_statements fun2).length
  · simp [functions_are_equivalent, hlen] at h
    obtain ⟨k, hp, h1, h2, hne, hbefore, _⟩ :=
      compare_loop_mismatch_inv _ _ 0 i expected actual dump_file d h
    have hk : i = k := by omega
    subst hk
    exact ⟨h1, h2, hne, hbefore⟩
  · cases dump_file with
    | none => rw [length_gate_null fun1 fun2 hlen] at h; cases h
    | some out => rw [length_gate_open out fun1 fun2 hlen] at h; cases h

/-- C3. For two functions with equally many statements: when
`functions_are_equivalent` leaves through the `return false` of the loop at
index `i` with the statements `expected` and `actual`, then `i` is a position
of both lists, `expected` and `actual` are the statements at that position
(operands included), their codes differ, and the codes agree at every earlier
position.  With `dump_file` open and the code sequences different, that exit
is taken. -/
theorem mismatch_is_first_difference (dump_file : Option FILE) (fun1 fun2 : function)
    (hlen : (get_gimple_statements fun1).length = (get_gimple_statements fun2).length) :
    (∀ (i : Nat) (expected actual : gimple) (d : Option FILE),
      functions_are_equivalent dump_file fun1 fun2 = .ok (.Mismatch i expected actual, d) →
        (∃ (h1 : i < (get_gimple_statements fun1).length)
            (h2 : i < (get_gimple_statements fun2).length),
          (get_gimple_statements fun1).get ⟨i, h1⟩ = expected ∧
          (get_gimple_statements fun2).get ⟨i, h2⟩ = actual ∧
          gimple_code ((get_gimple_statements fun1).get ⟨i, h1⟩) ≠
            gimple_code ((get_gimple_statements fun2).get ⟨i, h2⟩)) ∧
        ∀ (j : Nat) (h1 : j < (get_gimple_statements fun1).length)
          (h2 : j < (get_gimple_statements fun2).length), j < i →
          gimple_code ((get_gimple_statements fun1).get ⟨j, h1⟩) =
            gimple_code ((get_gimple_statements fun2).get ⟨j, h2⟩)) ∧
    (∀ out : FILE, dump_file = some out →
      (get_gimple_statements fun1).map gimple_code ≠
        (get_gimple_statements fun2).map gimple_code →
      ∃ i expected actual d,
        functions_are_equivalent dump_file fun1 fun2 = .ok (.Mismatch i expected actual, d)) := by
  constructor
  · intro i expected actual d h
    obtain ⟨h1, h2, hne, hbefore⟩ :=
      functions_are_equivalent_mismatch_inv dump_file d fun1 fun2 i expected actual h
    obtain ⟨hi1, e1⟩ := List.getElem?_eq_some.mp h1
    obtain ⟨hi2, e2⟩ := List.getElem?_eq_some.mp h2
    refine ⟨⟨hi1, hi2, by simpa using e1, by simpa using e2, ?_⟩, ?_⟩
    · simp only [List.get_eq_getElem, e1, e2]; exact hne
    · intro j hj1 hj2 hji
      have := hbefore j hji
      simpa [List.getElem?_eq_getElem hj1, List.getElem?_eq_getElem hj2] using this
  · intro out hd hne
    subst hd
    obtain ⟨v, lines, h⟩ := functions_are_equivalent_open out fun1 fun2
    cases v with
    | Equivalent =>
      exact absurd (functions_are_equivalent_equivalent_inv _ _ fun1 fun2 h).1 hne
    | Incomparable =>
      simp [functions_are_equivalent, hlen] at h
      exact absurd h (compare_loop_never_incomparable _ _ _ _ _)
    | Mismatch i e a => exact ⟨i, e, a, _, h⟩

/-- C3, an instance: `[1, 2(x), 3]` against `[1, 4(y, null), 3]` with an empty
open dump stream leaves at position `1` with both statements, operands and
all. -/
theorem mismatch_is_first_difference_witness :
    functions_are_equivalent (some [])
        ⟨"f", [[⟨1, []⟩, ⟨2, [some ⟨7⟩]⟩], [⟨3, []⟩]]⟩
        ⟨"g", [[⟨1, []⟩], [⟨4, [some ⟨8⟩, none]⟩, ⟨3, []⟩]]⟩ =
      .ok (.Mismatch 1 ⟨2, [some ⟨7⟩]⟩ ⟨4, [some ⟨8⟩, none]⟩,
        some [("Statements at position %zu are not equivalent.\n", [.zu 1]),
          ("Stmt1: code: %s\n", [.gimple_code_name 2]),
          ("  Number of operands: %u\n", [.u 1]),
          ("  Operand %u of stmt1: ", [.u 0]),
          ("    Operand %u: %s\n", [.u 0, .tree_code_name 7]),
          ("\n", []),
          ("Stmt2: code: %s\n", [.gimple_code_name 4]),
          ("  Number of operands: %u\n", [.u 2]),
          ("  Operand %u of stmt2: ", [.u 0]),
          ("    Operand %u: %s\n", [.u 0, .tree_code_name 8]),
          ("\n", []),
          ("  Operand %u of stmt2: ", [.u 1]),
          ("(null)\n", [])]) ∧
    ((∃ (h1 : 1 < (get_gimple_statements
              ⟨"f", [[⟨1, []⟩, ⟨2, [some ⟨7⟩]⟩], [⟨3, []⟩]]⟩).length)
          (h2 : 1 < (get_gimple_statements
              ⟨"g", [[⟨1, []⟩], [⟨4, [some ⟨8⟩, none]⟩, ⟨3, []⟩]]⟩).length),
        (get_gimple_statements ⟨"f", [[⟨1, []⟩, ⟨2, [some ⟨7⟩]⟩], [⟨3, []⟩]]⟩).get ⟨1, h1⟩ =
          ⟨2, [some ⟨7⟩]⟩ ∧
        (get_gimple_statements ⟨"g", [[⟨1, []⟩], [⟨4, [some ⟨8⟩, none]⟩, ⟨3, []⟩]]⟩).get ⟨1, h2⟩ =
          ⟨4, [some ⟨8⟩, none]⟩ ∧
        gimple_code ((get_gimple_statements
            ⟨"f", [[⟨1, []⟩, ⟨2, [some ⟨7⟩]⟩], [⟨3, []⟩]]⟩).get ⟨1, h1⟩) ≠
          gimple_code ((get_gimple_statements
            ⟨"g", [[⟨1, []⟩], [⟨4, [some ⟨8⟩, none]⟩, ⟨3, []⟩]]⟩).get ⟨1, h2⟩)) ∧
      ∀ (j : Nat)
        (h1 : j < (get_gimple_statements
          ⟨"f", [[⟨1, []⟩, ⟨2, [some ⟨7⟩]⟩], [⟨3, []⟩]]⟩).length)
        (h2 : j < (get_gimple_statements
          ⟨"g", [[⟨1, []⟩], [⟨4, [some ⟨8⟩, none]⟩, ⟨3, []⟩]]⟩).length), j < 1 →
        gimple_code ((get_gimple_statements
            ⟨"f", [[⟨1, []⟩, ⟨2, [some ⟨7⟩]⟩], [⟨3, []⟩]]⟩).get ⟨j, h1⟩) =
          gimple_code ((get_gimple_statements
            ⟨"g", [[⟨1, []⟩], [⟨4, [some ⟨8⟩, none]⟩, ⟨3, []⟩]]⟩).get ⟨j, h2⟩)) :=
  ⟨rfl, (mismatch_is_first_difference (some [])
    ⟨"f", [[⟨1, []⟩, ⟨2, [some ⟨7⟩]⟩], [⟨3, []⟩]]⟩
    ⟨"g", [[⟨1, []⟩], [⟨4, [some ⟨8⟩, none]⟩, ⟨3, []⟩]]⟩ rfl).1 1 _ _ _ rfl⟩

/-- C4. A function compared with itself, or with any function that has the
same statement list, is `Equivalent`, whatever the state of `dump_file`, and
nothing is written. -/
theorem functions_are_equivalent_refl (dump_file : Option FILE) (fn : function) :
    functions_are_equivalent dump_file fn fn = .ok (.Equivalent, dump_file) ∧
    ∀ fn' : function, get_gimple_statements fn' = get_gimple_statements fn →
      functions_are_equivalent dump_file fn fn' = .ok (.Equivalent, dump_file) :=
  ⟨functions_are_equivalent_same_codes dump_file fn fn rfl,
    fun fn' h => functions_are_equivalent_same_codes dump_file fn fn' (by rw [h])⟩

/-- C4, instances: the function without statements against itself, and a
function against a copy that has the same statements under another name and
another block structure. -/
theorem functions_are_equivalent_refl_witness :
    functions_are_equivalent none ⟨"empty", []⟩ ⟨"empty", []⟩ = .ok (.Equivalent, none) ∧
    functions_are_equivalent none ⟨"f", [[⟨1, [none]⟩, ⟨3, []⟩]]⟩
        ⟨"f.copy", [[⟨1, [none]⟩], [⟨3, []⟩]]⟩ = .ok (.Equivalent, none) :=
  ⟨(functions_are_equivalent_refl none ⟨"empty", []⟩).1,
    (functions_are_equivalent_refl none ⟨"f", [[⟨1, [none]⟩, ⟨3, []⟩]]⟩).2
      ⟨"f.copy", [[⟨1, [none]⟩], [⟨3, []⟩]]⟩ rfl⟩

theorem starts_with_iff (pat : List Char) :
    ∀ text : List Char, starts_with pat text = true ↔ ∃ post, text = pat ++ post := by
  induction pat with
  | nil => intro text; simp [starts_with]
  | cons p ps ih =>
    intro text
    cases text with
    | nil => simp [starts_with]
    | cons c cs =>
      simp only [starts_with, Bool.and_eq_true, beq_iff_eq, ih cs, List.cons_append,
        List.cons.injEq]
      constructor
      · rintro ⟨rfl, post, rfl⟩; exact ⟨post, rfl, rfl⟩
      · rintro ⟨post, rfl, rfl⟩; exact ⟨rfl, post, rfl⟩

theorem find_from_isSome_iff (pat : List Char) :
    ∀ (text : List Char) (pos : Nat),
      (find_from pat text pos).isSome = true ↔ ∃ pre post, text = pre ++ pat ++ post := by
  intro text
  induction text with
  | nil =>
    intro pos
    by_cases h : starts_with pat [] = true
    · simp only [find_from, h, if_true, Option.isSome_some, true_iff]
      obtain ⟨post, hp⟩ := (starts_with_iff pat []).mp h
      exact ⟨[], post, by simpa using hp⟩
    · rw [find_from, if_neg h]
      simp only [Option.isSome_none, Bool.false_eq_true, false_iff]
      rintro ⟨pre, post, hp⟩
      apply h
      rw [starts_with_iff]
      have h1 : pre = [] := by
        cases pre with
        | nil => rfl
        | cons a as => simp at hp
      subst h1
      exact ⟨post, by simpa using hp⟩
  | cons c cs ih =>
    intro pos
    by_cases h : starts_with pat (c :: cs) = true
    · simp only [find_from, h, if_true, Option.isSome_some, true_iff]
      obtain ⟨post, hp⟩ := (starts_with_iff pat (c :: cs)).mp h
      exact ⟨[], post, by simpa using hp⟩
    · rw [find_from, if_neg h, ih (pos + 1)]
      constructor
      · rintro ⟨pre, post, hp⟩
        exact ⟨c :: pre, post, by simp [hp]⟩
      · rintro ⟨pre, post, hp⟩
        cases pre with
        | nil =>
          exfalso
          apply h
          rw [starts_with_iff]
          exact ⟨post, by simpa using hp⟩
        | cons a as =>
          simp only [List.cons_append, List.cons.injEq] at hp
          exact ⟨as, post, hp.2⟩

theorem is_possible_base_function_iff (fname : String) :
    is_possible_base_function fname = true ↔
      ∃ pre post, fname.toList = pre ++ "base".toList ++ post := by
  unfold is_possible_base_function string_find
  exact find_from_isSome_iff _ _ 0

theorem is_clone_iff (fname base_function_name : String) :
    is_clone fname base_function_name = true ↔
      ∃ pre post, fname.toList = pre ++ (base_function_name ++ "_clone").toList ++ post := by
  unfold is_clone string_find
  exact find_from_isSome_iff _ _ 0

theorem find_base_split (functions : Registry) :
    ((∀ e ∈ functions, is_possible_base_function e.1 = false) ∧
        find_base functions = ("", none)) ∨
      ∃ before after,
        functions = before ++ find_base functions :: after ∧
        (∀ e ∈ before, is_possible_base_function e.1 = false) ∧
        is_possible_base_function (find_base functions).1 = true := by
  induction functions with
  | nil => left; simp [find_base]
  | cons e rest ih =>
    obtain ⟨fname, fn⟩ := e
    by_cases h : is_possible_base_function fname = true
    · right
      exact ⟨[], rest, by simp [find_base, h], by simp, by simp [find_base, h]⟩
    · have hf : is_possible_base_function fname = false := by simpa using h
      rcases ih with ⟨hall, hnone⟩ | ⟨before, after, hsplit, hbefore, hbase⟩
      · left
        refine ⟨?_, by simp [find_base, hf, hnone]⟩
        intro e he
        rcases List.mem_cons.mp he with rfl | he
        · exact hf
        · exact hall e he
      · right
        refine ⟨(fname, fn) :: before, after, ?_, ?_, by simpa [find_base, hf] using hbase⟩
        · simp only [find_base, hf, List.cons_append, List.cons.injEq, true_and]
          simpa using hsplit
        · intro e he
          rcases List.mem_cons.mp he with rfl | he
          · exact hf
          · exact hbefore e he

theorem find_clone_none (base_function_name : String) (functions : Registry)
    (h : ∀ e ∈ functions, is_clone e.1 base_function_name = false) :
    find_clone base_function_name functions = none := by
  induction functions with
  | nil => rfl
  | cons e rest ih =>
    obtain ⟨fname, fn⟩ := e
    have h0 : is_clone fname base_function_name = false := h (fname, fn) (by simp)
    simp only [find_clone, h0]
    exact ih (fun e he => h e (List.mem_cons_of_mem _ he))

theorem chars_lt_asymm (a : List Char) :
    ∀ b : List Char, chars_lt a b = true → chars_lt b a = false := by
  induction a with
  | nil => intro b; cases b <;> simp [chars_lt]
  | cons x xs ih =>
    intro b
    cases b with
    | nil => simp [chars_lt]
    | cons y ys =>
      simp only [chars_lt, Bool.or_eq_true, decide_eq_true_eq, Bool.and_eq_true, beq_iff_eq,
        Bool.or_eq_false_iff, decide_eq_false_iff_not, Bool.and_eq_false_imp]
      rintro (h | ⟨h, hrest⟩)
      · exact ⟨by omega, fun h' => by omega⟩
      · exact ⟨by omega, fun _ => ih ys hrest⟩

theorem string_lt_irrefl (a : String) : string_lt a a = false := by
  cases h : string_lt a a with
  | false => rfl
  | true =>
    have := chars_lt_asymm _ _ h
    unfold string_lt at h
    rw [h] at this
    cases this

/-- C6. In a registry whose keys ascend, when some name contains `"base"`,
the loop of lines 183-190 stops at an entry of the registry whose name
contains `"base"` (it satisfies `is_possible_base_function`), no entry
enumerated before it satisfies the predicate, and no entry with a smaller key
does. -/
theorem find_base_first_match (functions : Registry) (hord : functions.ordered)
    (hex : ∃ e ∈ functions, ∃ pre post, e.1.toList = pre ++ "base".toList ++ post) :
    find_base functions ∈ functions ∧
    (∃ pre post, (find_base functions).1.toList = pre ++ "base".toList ++ post) ∧
    is_possible_base_function (find_base functions).1 = true ∧
    (∃ before after, functions = before ++ find_base functions :: after ∧
      ∀ e ∈ before, is_possible_base_function e.1 = false) ∧
    (∀ e ∈ functions, string_lt e.1 (find_base functions).1 = true →
      is_possible_base_function e.1 = false) := by
  rcases find_base_split functions with ⟨hall, _⟩ | ⟨before, after, hsplit, hbefore, hbase⟩
  · obtain ⟨e, he, hsub⟩ := hex
    have := hall e he
    rw [(is_possible_base_function_iff e.1).mpr hsub] at this
    cases this
  · refine ⟨?_, (is_possible_base_function_iff _).mp hbase, hbase,
      ⟨before, after, hsplit, hbefore⟩, ?_⟩
    · have hm : find_base functions ∈ before ++ find_base functions :: after := by simp
      rw [← hsplit] at hm
      exact hm
    · intro e he hlt
      generalize find_base functions = sel at hsplit hbase hlt
      subst hsplit
      unfold Registry.ordered at hord
      rw [List.map_append, List.map_cons, List.pairwise_append, List.pairwise_cons] at hord
      obtain ⟨_, ⟨hafter, _⟩, _⟩ := hord
      rcases List.mem_append.mp he with he | he
      · exact hbefore e he
      · rcases List.mem_cons.mp he with rfl | he
        · rw [string_lt_irrefl] at hlt; cases hlt
        · have h1 := hafter e.1 (List.mem_map_of_mem _ he)
          have h2 := chars_lt_asymm _ _ h1
          unfold string_lt at hlt
          rw [hlt] at h2; cases h2

/-- C6, the instance of the specification: the map with the keys `"foo"`,
`"basefn"`, `"basefn2"` enumerates `"basefn"`, `"basefn2"`, `"foo"`, and
the loop stops at `"basefn"`. -/
theorem find_base_first_match_witness :
    (find_base [("basefn", some ⟨"basefn", []⟩), ("basefn2", some ⟨"basefn2", []⟩),
      ("foo", some ⟨"foo", []⟩)]).1 = "basefn" ∧
    ∀ e ∈ ([("basefn", some ⟨"basefn", []⟩), ("basefn2", some ⟨"basefn2", []⟩),
        ("foo", some ⟨"foo", []⟩)] : Registry),
      string_lt e.1 (find_base [("basefn", some ⟨"basefn", []⟩),
        ("basefn2", some ⟨"basefn2", []⟩), ("foo", some ⟨"foo", []⟩)]).1 = true →
      is_possible_base_function e.1 = false :=
  ⟨rfl, (find_base_first_match
    [("basefn", some ⟨"basefn", []⟩), ("basefn2", some ⟨"basefn2", []⟩),
      ("foo", some ⟨"foo", []⟩)]
    (by unfold Registry.ordered; decide)
    ⟨("basefn", some ⟨"basefn", []⟩), by simp, [], "fn".toList, by decide⟩).2.2.2.2⟩

theorem guarded_fprintf_eq (dump_file : Option FILE) (fmt : String) (args : List Arg) :
    guarded_fprintf dump_file fmt args =
      .ok (dump_file.map (fun out => out ++ [(fmt, args)])) := by
  cases dump_file <;> rfl

/-- C7. When the base loop stops at the name `B` with a non-null function and
no name of the registry contains `B + "_clone"`, then
`analyze_cloned_functions` leaves through the return of line 212 with `B`,
whatever the state of `dump_file`: it does not fault, it does not call
`functions_are_equivalent`, and the only thing written, when the stream is
open, is the line that no clone was found. -/
theorem analyze_no_clone (functions : Registry) (dump_file : Option FILE) (B : String)
    (base_function : function)
    (hne : functions ≠ [])
    (hbase : find_base functions = (B, some base_function))
    (hnone : ∀ e ∈ functions,
      ¬ ∃ pre post, e.1.toList = pre ++ (B ++ "_clone").toList ++ post) :
    analyze_cloned_functions functions dump_file =
      .ok (.NoCloneFound B, dump_file.map (fun out =>
        out ++ [("No cloned function found for base function: %s\n", [.str B])])) := by
  have hclone : find_clone B functions = none := by
    apply find_clone_none
    intro e he
    cases h : is_clone e.1 B with
    | false => rfl
    | true => exact absurd ((is_clone_iff e.1 B).mp h) (hnone e he)
  have hemp : functions.isEmpty = false := by
    cases functions with
    | nil => exact absurd rfl hne
    | cons _ _ => rfl
  simp [analyze_cloned_functions, hemp, hbase, hclone, guarded_fprintf_eq, bind, Except.bind]

/-- C7, the instance of the specification: the registry that holds only
`"basefn"`, with `dump_file` null and with an empty open stream. -/
theorem analyze_no_clone_witness :
    analyze_cloned_functions [("basefn", some ⟨"basefn", [[⟨1, []⟩, ⟨3, []⟩]]⟩)] none =
      .ok (.NoCloneFound "basefn", none) ∧
    analyze_cloned_functions [("basefn", some ⟨"basefn", [[⟨1, []⟩, ⟨3, []⟩]]⟩)] (some []) =
      .ok (.NoCloneFound "basefn",
        some [("No cloned function found for base function: %s\n", [.str "basefn"])]) :=
  ⟨analyze_no_clone [("basefn", some ⟨"basefn", [[⟨1, []⟩, ⟨3, []⟩]]⟩)] none "basefn"
      ⟨"basefn", [[⟨1, []⟩, ⟨3, []⟩]]⟩ (by simp) rfl
      (by
        intro e he
        rw [List.mem_singleton] at he
        subst he
        rw [← is_clone_iff]
        decide),
    analyze_no_clone [("basefn", some ⟨"basefn", [[⟨1, []⟩, ⟨3, []⟩]]⟩)] (some []) "basefn"
      ⟨"basefn", [[⟨1, []⟩, ⟨3, []⟩]]⟩ (by simp) rfl
      (by
        intro e he
        rw [List.mem_singleton] at he
        subst he
        rw [← is_clone_iff]
        decide)⟩

/-- C10. The selector gives up although a base and a clone of it are
present: in the registry with the keys `"a_base_clone"` and `"base"` (in
key order), `"base"` is a possible base and `"a_base_clone"` is a clone of it,
yet the base loop stops at `"a_base_clone"`, no name contains
`"a_base_clone_clone"`, and `analyze_cloned_functions` leaves through the
return of line 212, whatever the state of `dump_file`. -/
theorem selector_incomplete :
    ∃ (functions : Registry) (b c : String),
      functions.ordered ∧
      b ∈ functions.map Prod.fst ∧ c ∈ functions.map Prod.fst ∧
      is_possible_base_function b = true ∧ is_clone c b = true ∧
      (find_base functions).1 = "a_base_clone" ∧
      (∀ e ∈ functions, is_clone e.1 "a_base_clone" = false) ∧
      string_lt "a_base_clone" "base" = true ∧
      ∀ dump_file : Option FILE, ∃ d,
        analyze_cloned_functions functions dump_file = .ok (.NoCloneFound "a_base_clone", d) := by
  refine ⟨[("a_base_clone", some ⟨"a_base_clone", [[⟨1, []⟩]]⟩),
    ("base", some ⟨"base", [[⟨1, []⟩]]⟩)], "base", "a_base_clone", ?_, by simp, by simp,
    by decide, by decide, rfl, by decide, by decide, ?_⟩
  · unfold Registry.ordered; decide
  · intro dump_file
    cases dump_file with
    | none => exact ⟨_, rfl⟩
    | some out => exact ⟨_, rfl⟩

theorem compare_loop_null (stmts1 : List gimple) :
    ∀ (stmts2 : List gimple) (i : Nat), stmts1.length = stmts2.length →
      compare_loop stmts1 stmts2 i none =
        if stmts1.map gimple_code = stmts2.map gimple_code then .ok (.Equivalent, none)
        else .error .null_stream := by
  induction stmts1 with
  | nil =>
    intro stmts2 i hlen
    cases stmts2 with
    | nil => simp [compare_loop]
    | cons s2 r2 => simp at hlen
  | cons s1 r1 ih =>
    intro stmts2 i hlen
    cases stmts2 with
    | nil => simp at hlen
    | cons s2 r2 =>
      by_cases hc : gimple_code s1 = gimple_code s2
      · simp [compare_loop, statements_are_equivalent, hc, ih r2 (i + 1) (by simpa using hlen)]
      · simp [compare_loop, statements_are_equivalent, hc, report_mismatch_null, bind,
          Except.bind]

theorem functions_are_equivalent_null (fun1 fun2 : function) :
    functions_are_equivalent none fun1 fun2 =
      if (get_gimple_statements fun1).map gimple_code =
          (get_gimple_statements fun2).map gimple_code
      then .ok (.Equivalent, none) else .error .null_stream := by
  by_cases hlen : (get_gimple_statements fun1).length = (get_gimple_statements fun2).length
  · simp [functions_are_equivalent, hlen, compare_loop_null _ _ 0 hlen]
  · have hne : (get_gimple_statements fun1).map gimple_code ≠
        (get_gimple_statements fun2).map gimple_code := by
      intro h
      exact hlen (by simpa using congrArg List.length h)
    rw [length_gate_null fun1 fun2 hlen, if_neg hne]

theorem ret_eq_true_iff (v : Verdict) : v.ret = true ↔ v = .Equivalent := by
  cases v <;> simp [Verdict.ret]

theorem find_base_some_nonempty (functions : Registry) (B : String) (fb : function)
    (hbase : find_base functions = (B, some fb)) : functions.isEmpty = false := by
  cases functions with
  | nil => simp [find_base] at hbase
  | cons _ _ => rfl

theorem analyze_compared_open (functions : Registry) (out : FILE) (B : String)
    (fb fc : function)
    (hbase : find_base functions = (B, some fb))
    (hclone : find_clone B functions = some fc) :
    ∃ v d,
      functions_are_equivalent
          (some (out ++ [("Base function: %s\n", [.str B]),
            ("Cloned function: %s\n", [.str (function_name fc)])])) fb fc = .ok (v, some d) ∧
      analyze_cloned_functions functions (some out) =
        .ok (.Compared B (function_name fc) v (decide (v = .Equivalent)),
          some (d ++ [(if v = .Equivalent then
            "The cloned function is equivalent to the base function. Pruning is recommended.\n"
          else
            "The cloned function is not equivalent to the base function. Pruning is not recommended.\n",
            [])])) := by
  obtain ⟨v, lines, h⟩ := functions_are_equivalent_open
    (out ++ [("Base function: %s\n", [.str B]),
      ("Cloned function: %s\n", [.str (function_name fc)])]) fb fc
  refine ⟨v, _, h, ?_⟩
  have hemp := find_base_some_nonempty functions B fb hbase
  simp only [analyze_cloned_functions, hemp, hbase, hclone, guarded_fprintf_eq, bind,
    Except.bind, Option.map_some', List.append_assoc, List.singleton_append, Bool.false_eq_true,
    if_false]
  rw [h]
  by_cases hv : v = .Equivalent
  · have hr : v.ret = true := (ret_eq_true_iff v).mpr hv
    simp [hr, hv, Verdict.ret]
  · have hr : v.ret = false := by
      cases hret : v.ret with
      | false => rfl
      | true => exact absurd ((ret_eq_true_iff v).mp hret) hv
    simp [hr, hv]

theorem analyze_compared_null (functions : Registry) (B : String) (fb fc : function)
    (hbase : find_base functions = (B, some fb))
    (hclone : find_clone B functions = some fc) :
    analyze_cloned_functions functions none =
      if (get_gimple_statements fb).map gimple_code = (get_gimple_statements fc).map gimple_code
      then .ok (.Compared B (function_name fc) .Equivalent true, none)
      else .error .null_stream := by
  have hemp := find_base_some_nonempty functions B fb hbase
  by_cases hc : (get_gimple_statements fb).map gimple_code =
      (get_gimple_statements fc).map gimple_code
  · simp [analyze_cloned_functions, hemp, hbase, hclone, guarded_fprintf_eq, bind, Except.bind,
      functions_are_equivalent_null, hc, Verdict.ret]
  · simp [analyze_cloned_functions, hemp, hbase, hclone, guarded_fprintf_eq, bind, Except.bind,
      functions_are_equivalent_null, hc]

/-- C2, the failing input: with `dump_file` null, a function of one statement
against a function of none reaches the unguarded `fprintf` of line 57 and
faults there, where the specification has `Incomparable`; with an open
stream the same call returns through line 58. -/
theorem length_gate_faults_on_null_dump_file :
    functions_are_equivalent none ⟨"f", [[⟨1, []⟩]]⟩ ⟨"g", []⟩ = .error .null_stream ∧
    functions_are_equivalent (some []) ⟨"f", [[⟨1, []⟩]]⟩ ⟨"g", []⟩ =
      .ok (.Incomparable, some [("Functions have different number of statements.\n", [])]) :=
  ⟨length_gate_null _ _ (by decide), length_gate_open [] _ _ (by decide)⟩

/-- C5, the failing input: in the registry `basefn ↦ [1, 3]`,
`basefn_clone ↦ [2, 3]` the selector finds the base and the clone, and with
`dump_file` null `analyze_cloned_functions` faults in the call of line 220
(the unguarded `fprintf` of line 66), where the specification has
`Compared` with `recommend_prune = false`.  With the clone `[1, 3]` the same
run ends in `Compared` with `recommend_prune = true`. -/
theorem analyze_mismatch_faults_on_null_dump_file :
    find_base [("basefn", some ⟨"basefn", [[⟨1, []⟩, ⟨3, []⟩]]⟩),
        ("basefn_clone", some ⟨"basefn_clone", [[⟨2, []⟩, ⟨3, []⟩]]⟩)] =
      ("basefn", some ⟨"basefn", [[⟨1, []⟩, ⟨3, []⟩]]⟩) ∧
    find_clone "basefn" [("basefn", some ⟨"basefn", [[⟨1, []⟩, ⟨3, []⟩]]⟩),
        ("basefn_clone", some ⟨"basefn_clone", [[⟨2, []⟩, ⟨3, []⟩]]⟩)] =
      some ⟨"basefn_clone", [[⟨2, []⟩, ⟨3, []⟩]]⟩ ∧
    analyze_cloned_functions [("basefn", some ⟨"basefn", [[⟨1, []⟩, ⟨3, []⟩]]⟩),
        ("basefn_clone", some ⟨"basefn_clone", [[⟨2, []⟩, ⟨3, []⟩]]⟩)] none =
      .error .null_stream ∧
    analyze_cloned_functions [("basefn", some ⟨"basefn", [[⟨1, []⟩, ⟨3, []⟩]]⟩),
        ("basefn_clone", some ⟨"basefn_clone", [[⟨1, []⟩, ⟨3, []⟩]]⟩)] none =
      .ok (.Compared "basefn" "basefn_clone" .Equivalent true, none) :=
  ⟨rfl, rfl, rfl, rfl⟩

/-- C8, the failing inputs: for a clone that differs from the base in an
opcode, and for a clone that differs in length, `analyze_cloned_functions`
with an open (empty) dump stream ends in `Compared` with
`recommend_prune = false`, and with `dump_file` null it faults on the
unguarded `fprintf` of line 66, respectively line 57. -/
theorem decision_depends_on_dump_file :
    (∃ d, analyze_cloned_functions [("basefn", some ⟨"basefn", [[⟨1, []⟩, ⟨3, []⟩]]⟩),
        ("basefn_clone", some ⟨"basefn_clone", [[⟨2, []⟩, ⟨3, []⟩]]⟩)] (some []) =
      .ok (.Compared "basefn" "basefn_clone" (.Mismatch 0 ⟨1, []⟩ ⟨2, []⟩) false, d)) ∧
    analyze_cloned_functions [("basefn", some ⟨"basefn", [[⟨1, []⟩, ⟨3, []⟩]]⟩),
        ("basefn_clone", some ⟨"basefn_clone", [[⟨2, []⟩, ⟨3, []⟩]]⟩)] none =
      .error .null_stream ∧
    (∃ d, analyze_cloned_functions [("basefn", some ⟨"basefn", [[⟨1, []⟩, ⟨3, []⟩]]⟩),
        ("basefn_clone", some ⟨"basefn_clone", [[⟨3, []⟩]]⟩)] (some []) =
      .ok (.Compared "basefn" "basefn_clone" .Incomparable false, d)) ∧
    analyze_cloned_functions [("basefn", some ⟨"basefn", [[⟨1, []⟩, ⟨3, []⟩]]⟩),
        ("basefn_clone", some ⟨"basefn_clone", [[⟨3, []⟩]]⟩)] none =
      .error .null_stream :=
  ⟨⟨_, rfl⟩, rfl, ⟨_, rfl⟩, rfl⟩

theorem run_keeps_functions (c : Call) (s s' : PassState) (h : c.run s = .ok s') :
    s'.functions = s.functions := by
  cases c with
  | gate fn =>
    simp only [Call.run, Except.ok.injEq] at h
    rw [← h]
  | execute fn =>
    cases hr : execute s.functions s.dump_file fn with
    | error e => simp [Call.run, hr, bind, Except.bind] at h
    | ok r => simp [Call.run, hr, bind, Except.bind] at h; rw [← h]
  | analyze_cloned_functions =>
    cases hr : analyze_cloned_functions s.functions s.dump_file with
    | error e => simp [Call.run, hr, bind, Except.bind] at h
    | ok r => simp [Call.run, hr, bind, Except.bind] at h; rw [← h]
  | functions_are_equivalent fun1 fun2 =>
    cases hr : functions_are_equivalent s.dump_file fun1 fun2 with
    | error e => simp [Call.run, hr, bind, Except.bind] at h
    | ok r => simp [Call.run, hr, bind, Except.bind] at h; rw [← h]

theorem reachable_functions_empty (s : PassState) (h : Reachable s) : s.functions = [] := by
  induction h with
  | start d => rfl
  | call c _ hrun ih => rw [run_keeps_functions c _ _ hrun]; exact ih
  | host d _ ih => exact ih

theorem dump_stmt_ok (stmt : gimple) (d : Option FILE) : ∃ d', dump_stmt stmt d = .ok d' := by
  cases d with
  | none => exact ⟨none, rfl⟩
  | some out =>
    obtain ⟨lines, h⟩ := dump_operands_open "    Operand %u: " stmt.ops 0
      (out ++ [("GIMPLE stmt:\n", [])] ++
        [("  Code: %s\n", [.gimple_code_name (gimple_code stmt)])] ++
        [("  Number of operands: %u\n", [.u (gimple_num_ops stmt)])])
    refine ⟨some (out ++ [("GIMPLE stmt:\n", [])] ++
        [("  Code: %s\n", [.gimple_code_name (gimple_code stmt)])] ++
        [("  Number of operands: %u\n", [.u (gimple_num_ops stmt)])] ++ lines), ?_⟩
    simp only [dump_stmt, Option.isSome_some, if_true, fprintf_open, bind, Except.bind, h]

theorem dump_block_ok (bb : basic_block) : ∀ d : Option FILE, ∃ d', dump_block bb d = .ok d' := by
  induction bb with
  | nil => intro d; exact ⟨d, rfl⟩
  | cons stmt rest ih =>
    intro d
    obtain ⟨d1, h1⟩ := dump_stmt_ok stmt d
    obtain ⟨d2, h2⟩ := ih d1
    exact ⟨d2, by simp [dump_block, h1, h2, bind, Except.bind]⟩

theorem dump_blocks_ok (bbs : List basic_block) :
    ∀ d : Option FILE, ∃ d', dump_blocks bbs d = .ok d' := by
  induction bbs with
  | nil => intro d; exact ⟨d, rfl⟩
  | cons bb rest ih =>
    intro d
    obtain ⟨d1, h1⟩ := dump_block_ok bb d
    obtain ⟨d2, h2⟩ := ih d1
    exact ⟨d2, by simp [dump_blocks, h1, h2, bind, Except.bind]⟩

theorem execute_dump_ok (d : Option FILE) (fn : function) :
    ∃ d', execute_dump d fn = .ok d' := by
  obtain ⟨d', h⟩ := dump_blocks_ok fn.bbs
    (d.map (fun out => out ++ [("My pass is running on function: %s\n",
      [.str (function_name fn)])]))
  exact ⟨d', by simp [execute_dump, guarded_fprintf_eq, bind, Except.bind, h]⟩

theorem analyze_empty (d : Option FILE) :
    analyze_cloned_functions [] d =
      .ok (.NoFunctions,
        d.map (fun out => out ++ [("No functions recorded. Cannot analyze.\n", [])])) := by
  simp [analyze_cloned_functions, guarded_fprintf_eq, bind, Except.bind]

/-- C9. The registry of line 24 starts empty and no call of `gate`, `execute`,
`analyze_cloned_functions` or `functions_are_equivalent` changes it; so in
every state a run of the pass reaches the registry is empty, every call of
`analyze_cloned_functions` there leaves through the return of line 175
(before the base loop, the clone loop and the comparison), and `execute`
returns `0` after such a call. -/
theorem registry_stays_empty (s : PassState) (h : Reachable s) :
    functions_init = [] ∧
    (∀ (c : Call) (s' : PassState), c.run s = .ok s' → s'.functions = s.functions) ∧
    s.functions = [] ∧
    (∀ d : Option FILE, analyze_cloned_functions s.functions d =
      .ok (.NoFunctions,
        d.map (fun out => out ++ [("No functions recorded. Cannot analyze.\n", [])]))) ∧
    (∀ fn : function, ∃ d1,
      execute_dump s.dump_file fn = .ok d1 ∧
      analyze_cloned_functions s.functions d1 =
        .ok (.NoFunctions,
          d1.map (fun out => out ++ [("No functions recorded. Cannot analyze.\n", [])])) ∧
      execute s.functions s.dump_file fn =
        .ok (0, d1.map (fun out => out ++ [("No functions recorded. Cannot analyze.\n", [])]))) := by
  have hemp := reachable_functions_empty s h
  refine ⟨rfl, fun c s' hrun => run_keeps_functions c s s' hrun, hemp, ?_, ?_⟩
  · intro d; rw [hemp]; exact analyze_empty d
  · intro fn
    obtain ⟨d1, h1⟩ := execute_dump_ok s.dump_file fn
    refine ⟨d1, h1, by rw [hemp]; exact analyze_empty d1, ?_⟩
    simp [execute, h1, hemp, analyze_empty, bind, Except.bind]

/-- C9, an instance: the state after `execute` has run once on a function of
one statement, from the start with an empty open dump stream. -/
theorem registry_stays_empty_witness :
    Reachable ⟨[], some [("My pass is running on function: %s\n", [.str "f"]),
        ("GIMPLE stmt:\n", []), ("  Code: %s\n", [.gimple_code_name 1]),
        ("  Number of operands: %u\n", [.u 0]),
        ("No functions recorded. Cannot analyze.\n", [])]⟩ ∧
    ∀ d : Option FILE, analyze_cloned_functions [] d =
      .ok (.NoFunctions,
        d.map (fun out => out ++ [("No functions recorded. Cannot analyze.\n", [])])) :=
  ⟨Reachable.call (.execute ⟨"f", [[⟨1, []⟩]]⟩) (Reachable.start (some [])) rfl,
    (registry_stays_empty _
      (Reachable.call (.execute ⟨"f", [[⟨1, []⟩]]⟩) (Reachable.start (some [])) rfl)).2.2.2.1⟩

end TreeMyPass
